import Mathlib

/-!
Verification development for the exercise-tracker repository.

The body-diagram selection logic is embedded from `src/app.jsx`.  The
scoring core (e1RM calculator, score mapper, rolling window aggregator,
muscle score composer, set/exercise screening) lives in `src/export.py`,
which is not part of the repository snapshot; those components are
modelled from the specification, as marked on each definition.
-/

/-- Disabled body-diagram parts, from `src/app.jsx`:
`const DISABLED_PARTS = ['head', 'knees']`. -/
def DISABLED_PARTS : List String := ["head", "knees"]

/-- Muscle alias map, from `src/app.jsx`: the rendered parts
`left-soleus` and `right-soleus` both alias the canonical muscle
name `calves`; every other part name has no alias. -/
def MUSCLE_ALIASES (m : String) : Option String :=
  if m = "left-soleus" then some "calves"
  else if m = "right-soleus" then some "calves"
  else none

/-- Click handler of `BodyDiagram` in `src/app.jsx`.  Returns `none` when
the clicked part is disabled (the handler returns before calling
`onSelect`), otherwise `some name` where `name` is the argument passed to
`onSelect`, namely `MUSCLE_ALIASES[muscle] || muscle` (alias values are
nonempty strings, so the JavaScript `||` is an alias lookup with the raw
part name as fallback). -/
def clickAction (muscle : String) : Option String :=
  if muscle ∈ DISABLED_PARTS then none
  else some ((MUSCLE_ALIASES muscle).getD muscle)

/-- State transition of the selected-muscle state on a click: `onSelect`
is `setSelectedMuscle`, so the state becomes the mapped name when the
callback fires and is unchanged when the handler returns early. -/
def applyClick (selected : Option String) (muscle : String) : Option String :=
  match clickAction muscle with
  | none => selected
  | some m => some m

/-- Modelled from the spec: a Standards Table entry for one
(exercise, sex) pair — the bodyweight multipliers at the five level
boundaries beginner=100, novice=200, intermediate=300, advanced=400,
elite=500 on the score scale.  The scoring source (`src/export.py`) is
absent from the snapshot. -/
structure StandardsEntry where
  beginner : ℚ
  novice : ℚ
  intermediate : ℚ
  advanced : ℚ
  elite : ℚ
deriving DecidableEq

/-- Modelled from the spec: the Standards Table invariant — level
multipliers are positive and strictly increasing. -/
def validEntry (st : StandardsEntry) : Prop :=
  0 < st.beginner ∧ st.beginner < st.novice ∧ st.novice < st.intermediate ∧
    st.intermediate < st.advanced ∧ st.advanced < st.elite

instance (st : StandardsEntry) : Decidable (validEntry st) := by
  unfold validEntry; infer_instance

/-- Modelled from the spec: score-mapper segment below the beginner
multiplier, `100 * r / first_multiplier` (linear from 0 through
beginner, unclamped below). -/
def segBelow (st : StandardsEntry) (r : ℚ) : ℚ := 100 * r / st.beginner

/-- Modelled from the spec: linear interpolation on the
beginner-to-novice segment. -/
def segBN (st : StandardsEntry) (r : ℚ) : ℚ :=
  100 + 100 * (r - st.beginner) / (st.novice - st.beginner)

/-- Modelled from the spec: linear interpolation on the
novice-to-intermediate segment. -/
def segNI (st : StandardsEntry) (r : ℚ) : ℚ :=
  200 + 100 * (r - st.novice) / (st.intermediate - st.novice)

/-- Modelled from the spec: linear interpolation on the
intermediate-to-advanced segment. -/
def segIA (st : StandardsEntry) (r : ℚ) : ℚ :=
  300 + 100 * (r - st.intermediate) / (st.advanced - st.intermediate)

/-- Modelled from the spec: linear interpolation on the
advanced-to-elite segment. -/
def segAE (st : StandardsEntry) (r : ℚ) : ℚ :=
  400 + 100 * (r - st.advanced) / (st.elite - st.advanced)

/-- Modelled from the spec: proportional linear extrapolation beyond the
elite multiplier (clamped to 500 afterwards). -/
def segAbove (st : StandardsEntry) (r : ℚ) : ℚ := 500 * r / st.elite

/-- Modelled from the spec: the unclamped score — walk the ordered level
list and evaluate the segment the ratio falls in. -/
def rawScore (st : StandardsEntry) (r : ℚ) : ℚ :=
  if r < st.beginner then segBelow st r
  else if r < st.novice then segBN st r
  else if r < st.intermediate then segNI st r
  else if r < st.advanced then segIA st r
  else if r < st.elite then segAE st r
  else segAbove st r

/-- Modelled from the spec: final clamp of the score to [0, 500]. -/
def clampScore (x : ℚ) : ℚ := if 500 ≤ x then 500 else if x ≤ 0 then 0 else x

/-- Modelled from the spec: the Score Mapper as a function of the ratio
`r = e1RM / bodyweight` for a fixed (exercise, sex) standards entry. -/
def mapScore (st : StandardsEntry) (r : ℚ) : ℚ := clampScore (rawScore st r)

/-- Modelled from the spec: the observations of one exercise whose dates
fall in the inclusive 7-day trailing window [d − 6, d].  Dates are
calendar days counted as integers. -/
def windowObs (obs : List (Int × ℚ)) (d : Int) : List ℚ :=
  (obs.filter (fun p => decide (d - 6 ≤ p.1 ∧ p.1 ≤ d))).map Prod.snd

/-- Modelled from the spec: the Rolling Window Aggregator at one date —
the maximum observed score inside the trailing window, or absence
(`none`, never zero) when the window holds no observation. -/
def rollingScore (obs : List (Int × ℚ)) (d : Int) : Option ℚ :=
  match windowObs obs d with
  | [] => none
  | x :: xs => some (xs.foldl max x)

/-- Modelled from the spec: the (weight, score) pairs of the exercises
that contribute to a muscle and have a defined rolling score. -/
def contribPoints (contrib : List (String × ℚ)) (scores : String → Option ℚ) :
    List (ℚ × ℚ) :=
  contrib.filterMap (fun p => (scores p.1).map (fun s => (p.2, s)))

/-- Modelled from the spec: the Muscle Score Composer for one muscle on
one date — the weighted average Σ(wᵢ·sᵢ)/Σ(wᵢ) over contributing
exercises with a defined score, absent when there is none. -/
def muscleScore (contrib : List (String × ℚ)) (scores : String → Option ℚ) :
    Option ℚ :=
  match contribPoints contrib scores with
  | [] => none
  | q :: qs =>
      some ((((q :: qs).map (fun t => t.1 * t.2)).sum) /
        (((q :: qs).map Prod.fst).sum))

/-- Modelled from the spec: the composer fed by the Rolling Window
Aggregator — each contributing exercise's score on date `d` is its
rolling score over its own observation series. -/
def muscleScoreAt (contrib : List (String × ℚ))
    (series : String → List (Int × ℚ)) (d : Int) : Option ℚ :=
  muscleScore contrib (fun e => rollingScore (series e) d)

/-- Modelled from the spec: a logged Set — repetitions and weight as
recorded (unvalidated, so reps may be any integer and weight any
rational). -/
structure GymSet where
  reps : Int
  weight : ℚ
deriving DecidableEq

/-- Modelled from the spec: a Set raises `InvalidSetError` exactly when
reps < 1 or weight < 0. -/
def setInvalid (s : GymSet) : Bool := decide (s.reps < 1 ∨ s.weight < 0)

/-- Modelled from the spec: the Sets of a session that reach scoring —
the invalid ones are excluded, the rest processed in order. -/
def validSets (sets : List GymSet) : List GymSet :=
  sets.filter (fun s => ! setInvalid s)

/-- Modelled from the spec: the offending Sets reported as
`InvalidSetError`s, collected alongside the partial results. -/
def invalidSetReports (sets : List GymSet) : List GymSet :=
  sets.filter setInvalid

/-- Modelled from the spec: the e1RM Calculator, Mayhew-style formula
e1RM = weight × 100 / (52.2 + 41.9 × e^(−0.055 × reps)). -/
noncomputable def e1RM (reps : ℕ) (weight : ℝ) : ℝ :=
  weight * 100 / (52.2 + 41.9 * Real.exp (-(0.055) * reps))

/-- Modelled from the spec: a session's effective e1RM — the maximum
e1RM across the session's valid Sets, absent when none are valid. -/
noncomputable def sessionBest (sets : List GymSet) : Option ℝ :=
  match validSets sets with
  | [] => none
  | s :: rest =>
      some (rest.foldl (fun acc t => max acc (e1RM t.reps.toNat (t.weight : ℝ)))
        (e1RM s.reps.toNat (s.weight : ℝ)))

/-- Modelled from the spec: the two sexes the Standards Table is keyed
by. -/
inductive Sex
  | male
  | female
deriving DecidableEq

/-- Modelled from the spec: the error taxonomy of the scoring core that
the claims touch. -/
inductive PipelineError
  | unknownExercise
  | invalidSet
deriving DecidableEq

/-- Modelled from the spec: the Standards Table lookup,
(exercise, sex) → level list, `none` when the pair is absent. -/
def lookupStd (std : List ((String × Sex) × StandardsEntry))
    (name : String) (sex : Sex) : Option StandardsEntry :=
  (std.find? (fun p => decide (p.1.1 = name) && decide (p.1.2 = sex))).map
    Prod.snd

/-- Modelled from the spec: scoring one (exercise, e1RM) pair — the
standards lookup failure is surfaced as `UnknownExerciseError`, success
maps the ratio e1RM / bodyweight through the Score Mapper. -/
def scoreEntry (std : List ((String × Sex) × StandardsEntry)) (sex : Sex)
    (bw : ℚ) (p : String × ℚ) : Except PipelineError ℚ :=
  match lookupStd std p.1 sex with
  | none => Except.error PipelineError.unknownExercise
  | some st => Except.ok (mapScore st (p.2 / bw))

/-- Modelled from the spec: best-effort batch scoring of a log's
(exercise, e1RM) entries — each entry is scored independently and errors
are collected alongside results, never aborting the rest. -/
def scoreEntries (std : List ((String × Sex) × StandardsEntry)) (sex : Sex)
    (bw : ℚ) (entries : List (String × ℚ)) :
    List (String × Except PipelineError ℚ) :=
  entries.map (fun p => (p.1, scoreEntry std sex bw p))

example : mapScore ⟨1, 2, 3, 4, 5⟩ 5 = 500 := by
  norm_num [mapScore, rawScore, clampScore, segBelow, segBN, segNI, segIA, segAE, segAbove]
example : mapScore ⟨1, 2, 3, 4, 5⟩ (3/2) = 150 := by
  norm_num [mapScore, rawScore, clampScore, segBelow, segBN, segNI, segIA, segAE, segAbove]
example : mapScore ⟨1, 2, 3, 4, 5⟩ (1/2) = 50 := by
  norm_num [mapScore, rawScore, clampScore, segBelow, segBN, segNI, segIA, segAE, segAbove]
example : mapScore ⟨1, 2, 3, 4, 5⟩ 10 = 500 := by
  norm_num [mapScore, rawScore, clampScore, segBelow, segBN, segNI, segIA, segAE, segAbove]

/-- C9: clicking the body-diagram part named left-soleus or right-soleus
sets the selected muscle to the canonical name calves — the alias map is
applied to the clicked part name before the selection callback receives
it, for every prior selection state. -/
theorem c9_soleus_click_selects_calves :
    ∀ selected : Option String,
      applyClick selected "left-soleus" = some "calves" ∧
        applyClick selected "right-soleus" = some "calves" ∧
        clickAction "left-soleus" = some "calves" ∧
        clickAction "right-soleus" = some "calves" := by
  intro selected
  exact ⟨rfl, rfl, rfl, rfl⟩

/-- C10: clicking a disabled body-diagram part (head or knees) leaves
the selected muscle unchanged — the handler returns before invoking the
selection callback, so no observable state changes, for every prior
selection state. -/
theorem c10_disabled_click_is_noop :
    ∀ selected : Option String,
      applyClick selected "head" = selected ∧
        applyClick selected "knees" = selected ∧
        clickAction "head" = none ∧
        clickAction "knees" = none := by
  intro selected
  exact ⟨rfl, rfl, rfl, rfl⟩

/-- C3: for a single observation of score S on date D, the Rolling
Window Aggregator yields S on every date of the inclusive range
[D, D + 6] and yields no value (absence, not zero) on every other
date. -/
theorem c3_rolling_single_observation (D : Int) (S : ℚ) (d : Int) :
    rollingScore [(D, S)] d = if D ≤ d ∧ d ≤ D + 6 then some S else none := by
  unfold rollingScore windowObs
  simp only [List.filter_cons, List.filter_nil, decide_eq_true_eq]
  by_cases hw : d - 6 ≤ D ∧ D ≤ d
  · rw [if_pos hw, if_pos (show D ≤ d ∧ d ≤ D + 6 by omega)]
    simp
  · rw [if_neg hw, if_neg (show ¬ (D ≤ d ∧ d ≤ D + 6) by omega)]
    simp

/-- C4: for a muscle contributed to by exactly one exercise with weight
1.0, the Muscle Score Composer's output on a date equals that
exercise's rolling score whenever the rolling score is defined. -/
theorem c4_single_isolation_contribution (series : String → List (Int × ℚ))
    (e : String) (d : Int) (s : ℚ)
    (h : rollingScore (series e) d = some s) :
    muscleScoreAt [(e, 1)] series d = some s := by
  unfold muscleScoreAt muscleScore contribPoints
  simp [h]

/-- C4 witness: a concrete single-exercise, weight-1.0 muscle with one
observation on day 0 evaluates to that observation's rolling score. -/
theorem c4_single_isolation_contribution_witness :
    rollingScore ((fun _ : String => [((0 : Int), (3 : ℚ))]) "squat") 0 = some 3 ∧
      muscleScoreAt [("squat", 1)] (fun _ : String => [((0 : Int), (3 : ℚ))]) 0 =
        some 3 := by
  have h : rollingScore ((fun _ : String => [((0 : Int), (3 : ℚ))]) "squat") 0 =
      some 3 := by
    simp [rollingScore, windowObs]
  exact ⟨h, c4_single_isolation_contribution _ "squat" 0 3 h⟩

/-- Helper: the final clamp is never below 0. -/
theorem clampScore_nonneg (x : ℚ) : 0 ≤ clampScore x := by
  unfold clampScore
  split_ifs <;> linarith

/-- Helper: the final clamp is never above 500. -/
theorem clampScore_le_500 (x : ℚ) : clampScore x ≤ 500 := by
  unfold clampScore
  split_ifs <;> linarith

/-- C2: for a valid standards entry and any non-negative ratio, the
Score Mapper's result lies in [0, 500]; and for every ratio at or above
the elite (last) multiplier the result is exactly 500. -/
theorem c2_score_range_and_elite_ceiling (st : StandardsEntry) (r : ℚ)
    (hst : validEntry st) (hr : 0 ≤ r) :
    (0 ≤ mapScore st r ∧ mapScore st r ≤ 500) ∧
      (st.elite ≤ r → mapScore st r = 500) := by
  obtain ⟨hb, hbn, hni, hia, hae⟩ := hst
  refine ⟨⟨clampScore_nonneg _, clampScore_le_500 _⟩, fun he => ?_⟩
  have hraw : rawScore st r = segAbove st r := by
    unfold rawScore
    rw [if_neg (by linarith), if_neg (by linarith), if_neg (by linarith),
      if_neg (by linarith), if_neg (by linarith)]
  have hel : 0 < st.elite := by linarith
  have h500 : (500 : ℚ) ≤ segAbove st r := by
    unfold segAbove
    rw [le_div_iff₀ hel]
    linarith
  unfold mapScore
  rw [hraw]
  unfold clampScore
  rw [if_pos h500]

/-- C2 witness: the concrete valid entry (1, 2, 3, 4, 5) at ratio 6
(past elite) stays in range and hits the elite ceiling of 500. -/
theorem c2_score_range_and_elite_ceiling_witness :
    validEntry ⟨1, 2, 3, 4, 5⟩ ∧ (0 : ℚ) ≤ 6 ∧
      ((0 ≤ mapScore ⟨1, 2, 3, 4, 5⟩ 6 ∧ mapScore ⟨1, 2, 3, 4, 5⟩ 6 ≤ 500) ∧
        ((⟨1, 2, 3, 4, 5⟩ : StandardsEntry).elite ≤ 6 →
          mapScore ⟨1, 2, 3, 4, 5⟩ 6 = 500)) := by
  have hv : validEntry ⟨1, 2, 3, 4, 5⟩ := by
    unfold validEntry
    norm_num
  exact ⟨hv, by norm_num,
    c2_score_range_and_elite_ceiling ⟨1, 2, 3, 4, 5⟩ 6 hv (by norm_num)⟩

/-- C6: the Score Mapper is piecewise-linear and continuous at every
level boundary — at each multiplier of the ordered level list, the
segment below and the segment above compute the same value. -/
theorem c6_piecewise_continuity (st : StandardsEntry) (hst : validEntry st) :
    segBelow st st.beginner = segBN st st.beginner ∧
      segBN st st.novice = segNI st st.novice ∧
      segNI st st.intermediate = segIA st st.intermediate ∧
      segIA st st.advanced = segAE st st.advanced ∧
      segAE st st.elite = segAbove st st.elite := by
  obtain ⟨hb, hbn, hni, hia, hae⟩ := hst
  have h0 : st.beginner ≠ 0 := ne_of_gt hb
  have h1 : st.novice - st.beginner ≠ 0 := sub_ne_zero.2 (ne_of_gt hbn)
  have h2 : st.intermediate - st.novice ≠ 0 := sub_ne_zero.2 (ne_of_gt hni)
  have h3 : st.advanced - st.intermediate ≠ 0 := sub_ne_zero.2 (ne_of_gt hia)
  have h4 : st.elite - st.advanced ≠ 0 := sub_ne_zero.2 (ne_of_gt hae)
  have h5 : st.elite ≠ 0 := by
    have : 0 < st.elite := by linarith
    exact ne_of_gt this
  refine ⟨?_, ?_, ?_, ?_, ?_⟩
  · unfold segBelow segBN
    field_simp
  · unfold segBN segNI
    field_simp
    ring
  · unfold segNI segIA
    field_simp
    ring
  · unfold segIA segAE
    field_simp
    ring
  · unfold segAE segAbove
    field_simp
    ring

/-- C6 witness: the five boundary equalities hold for the concrete
valid entry (1, 2, 3, 4, 5). -/
theorem c6_piecewise_continuity_witness :
    validEntry ⟨1, 2, 3, 4, 5⟩ ∧
      (segBelow ⟨1, 2, 3, 4, 5⟩ 1 = segBN ⟨1, 2, 3, 4, 5⟩ 1 ∧
        segBN ⟨1, 2, 3, 4, 5⟩ 2 = segNI ⟨1, 2, 3, 4, 5⟩ 2 ∧
        segNI ⟨1, 2, 3, 4, 5⟩ 3 = segIA ⟨1, 2, 3, 4, 5⟩ 3 ∧
        segIA ⟨1, 2, 3, 4, 5⟩ 4 = segAE ⟨1, 2, 3, 4, 5⟩ 4 ∧
        segAE ⟨1, 2, 3, 4, 5⟩ 5 = segAbove ⟨1, 2, 3, 4, 5⟩ 5) := by
  have hv : validEntry ⟨1, 2, 3, 4, 5⟩ := by
    unfold validEntry
    norm_num
  exact ⟨hv, c6_piecewise_continuity ⟨1, 2, 3, 4, 5⟩ hv⟩

/-- C7: exactly the Sets with reps < 1 or weight < 0 are excluded (as
InvalidSetError reports), and removing an invalid Set from a session
leaves the valid Sets and the session's best e1RM unchanged — no
invalid Set aborts its session. -/
theorem c7_invalid_set_local_recovery (pre post : List GymSet) (bad : GymSet)
    (h : setInvalid bad = true) :
    (∀ s : GymSet, setInvalid s = true ↔ (s.reps < 1 ∨ s.weight < 0)) ∧
      invalidSetReports (pre ++ bad :: post) =
        invalidSetReports pre ++ bad :: invalidSetReports post ∧
      validSets (pre ++ bad :: post) = validSets (pre ++ post) ∧
      sessionBest (pre ++ bad :: post) = sessionBest (pre ++ post) := by
  have hvalid : validSets (pre ++ bad :: post) = validSets (pre ++ post) := by
    simp [validSets, List.filter_append, List.filter_cons, h]
  refine ⟨fun s => by simp [setInvalid], ?_, hvalid, ?_⟩
  · simp [invalidSetReports, List.filter_append, List.filter_cons, h]
  · unfold sessionBest
    rw [hvalid]

/-- C7 witness: the invalid Set (reps 0, weight 5) is excluded and the
session containing it scores identically to the session without it. -/
theorem c7_invalid_set_local_recovery_witness :
    setInvalid ⟨0, 5⟩ = true ∧
      ((∀ s : GymSet, setInvalid s = true ↔ (s.reps < 1 ∨ s.weight < 0)) ∧
        invalidSetReports ([] ++ ⟨0, 5⟩ :: [⟨5, 10⟩]) =
          invalidSetReports [] ++ ⟨0, 5⟩ :: invalidSetReports [⟨5, 10⟩] ∧
        validSets ([] ++ ⟨0, 5⟩ :: [⟨5, 10⟩]) = validSets ([] ++ [⟨5, 10⟩]) ∧
        sessionBest ([] ++ ⟨0, 5⟩ :: [⟨5, 10⟩]) = sessionBest ([] ++ [⟨5, 10⟩])) := by
  have h : setInvalid (⟨0, 5⟩ : GymSet) = true := by
    simp [setInvalid]
  exact ⟨h, c7_invalid_set_local_recovery [] [⟨5, 10⟩] ⟨0, 5⟩ h⟩

/-- C8: an exercise name with no standards entry for the requested sex
is scored as a surfaced UnknownExerciseError entry, and every other
entry of the log scores exactly as it would were the unknown exercise
absent. -/
theorem c8_unknown_exercise_surfaced (std : List ((String × Sex) × StandardsEntry))
    (sex : Sex) (bw : ℚ) (pre post : List (String × ℚ)) (name : String) (x : ℚ)
    (h : lookupStd std name sex = none) :
    scoreEntries std sex bw (pre ++ (name, x) :: post) =
      scoreEntries std sex bw pre ++
        (name, Except.error PipelineError.unknownExercise) ::
          scoreEntries std sex bw post ∧
      scoreEntries std sex bw (pre ++ post) =
        scoreEntries std sex bw pre ++ scoreEntries std sex bw post := by
  constructor
  · simp [scoreEntries, scoreEntry, h]
  · simp [scoreEntries]

/-- C8 witness: with a standards table holding only (squat, male), the
unknown exercise unicorn curl yields a surfaced error entry while the
squat entry on the same date scores as if the unknown were absent. -/
theorem c8_unknown_exercise_surfaced_witness :
    lookupStd [(("squat", Sex.male), ⟨1, 2, 3, 4, 5⟩)] "unicorn curl" Sex.male =
        none ∧
      (scoreEntries [(("squat", Sex.male), ⟨1, 2, 3, 4, 5⟩)] Sex.male 70
          ([("squat", 100)] ++ ("unicorn curl", 50) :: []) =
        scoreEntries [(("squat", Sex.male), ⟨1, 2, 3, 4, 5⟩)] Sex.male 70
            [("squat", 100)] ++
          ("unicorn curl", Except.error PipelineError.unknownExercise) ::
            scoreEntries [(("squat", Sex.male), ⟨1, 2, 3, 4, 5⟩)] Sex.male 70 [] ∧
        scoreEntries [(("squat", Sex.male), ⟨1, 2, 3, 4, 5⟩)] Sex.male 70
            ([("squat", 100)] ++ []) =
          scoreEntries [(("squat", Sex.male), ⟨1, 2, 3, 4, 5⟩)] Sex.male 70
              [("squat", 100)] ++
            scoreEntries [(("squat", Sex.male), ⟨1, 2, 3, 4, 5⟩)] Sex.male 70 []) := by
  have h : lookupStd [(("squat", Sex.male), ⟨1, 2, 3, 4, 5⟩)] "unicorn curl"
      Sex.male = none := by
    simp [lookupStd, List.find?]
  exact ⟨h, c8_unknown_exercise_surfaced _ Sex.male 70 [("squat", 100)] []
    "unicorn curl" 50 h⟩

/-- Helper: the Mayhew denominator 52.2 + 41.9·e^x is positive. -/
theorem mayhewDenom_pos (x : ℝ) : 0 < 52.2 + 41.9 * Real.exp x := by
  have h := Real.exp_pos x
  nlinarith

/-- C1 counterexample: at reps = 1 and weight = 1 the Mayhew-style
formula does not return the weight, since its denominator
52.2 + 41.9·e^(−0.055) is strictly below 100. -/
theorem c1_counterexample_reps_one : e1RM 1 1 ≠ 1 := by
  unfold e1RM
  have hlt : Real.exp (-(0.055) * ((1 : ℕ) : ℝ)) < 1 := by
    rw [Real.exp_lt_one_iff]
    norm_num
  have hpos : 0 < 52.2 + 41.9 * Real.exp (-(0.055) * ((1 : ℕ) : ℝ)) :=
    mayhewDenom_pos _
  have hne := ne_of_gt hpos
  intro h
  rw [one_mul, div_eq_one_iff_eq hne] at h
  linarith

/-- C1 amended: the e1RM Calculator at reps = 1 returns at least the
weight for every weight ≥ 0, and strictly more for every weight > 0 —
the exact boundary condition e1RM(1, w) = w fails for the Mayhew-style
formula. -/
theorem c1_amended_reps_one_overestimates (w : ℝ) (hw : 0 ≤ w) :
    w ≤ e1RM 1 w ∧ (0 < w → w < e1RM 1 w) := by
  unfold e1RM
  have hlt : Real.exp (-(0.055) * ((1 : ℕ) : ℝ)) < 1 := by
    rw [Real.exp_lt_one_iff]
    norm_num
  have hpos : 0 < 52.2 + 41.9 * Real.exp (-(0.055) * ((1 : ℕ) : ℝ)) :=
    mayhewDenom_pos _
  have hD : 52.2 + 41.9 * Real.exp (-(0.055) * ((1 : ℕ) : ℝ)) < 100 := by
    linarith
  constructor
  · rw [le_div_iff₀ hpos]
    nlinarith
  · intro hw0
    rw [lt_div_iff₀ hpos]
    nlinarith

/-- C1 amended witness: at weight 1 the estimate is at least 1 and
strictly above 1. -/
theorem c1_amended_reps_one_overestimates_witness :
    (0 : ℝ) ≤ 1 ∧ ((1 : ℝ) ≤ e1RM 1 1 ∧ ((0 : ℝ) < 1 → (1 : ℝ) < e1RM 1 1)) :=
  ⟨by norm_num, c1_amended_reps_one_overestimates 1 (by norm_num)⟩

/-- C5: at fixed non-negative weight the e1RM Calculator is monotone
non-decreasing in the rep count. -/
theorem c5_e1rm_monotone_in_reps (r1 r2 : ℕ) (w : ℝ) (h1 : 1 ≤ r1)
    (h12 : r1 < r2) (hw : 0 ≤ w) : e1RM r1 w ≤ e1RM r2 w := by
  unfold e1RM
  have hcast : (r1 : ℝ) < (r2 : ℝ) := by exact_mod_cast h12
  have hexp : Real.exp (-(0.055) * (r2 : ℝ)) ≤ Real.exp (-(0.055) * (r1 : ℝ)) := by
    apply Real.exp_le_exp.2
    linarith
  have hpos2 : 0 < 52.2 + 41.9 * Real.exp (-(0.055) * (r2 : ℝ)) :=
    mayhewDenom_pos _
  have hnum : 0 ≤ w * 100 := by positivity
  apply div_le_div_of_nonneg_left hnum hpos2
  linarith

/-- C5 witness: one rep versus two reps at weight 1. -/
theorem c5_e1rm_monotone_in_reps_witness :
    1 ≤ 1 ∧ 1 < 2 ∧ (0 : ℝ) ≤ 1 ∧ e1RM 1 1 ≤ e1RM 2 1 :=
  ⟨le_refl 1, by norm_num, by norm_num,
    c5_e1rm_monotone_in_reps 1 2 1 (le_refl 1) (by norm_num) (by norm_num)⟩
